import Mathlib

/-!
# TalentScout Hiring Assistant — verification of the conversation engine

Shallow embedding of the TalentScout hiring-assistant sources
(`chatbot.py`, `ai_question_generator.py`, `database_handler.py`) and proofs
about the conversation state machine, the deterministic question bank and the
candidate-record validation.

Modelling conventions:
* Python strings are Lean `String`s; character-class tests (`\d`, `\s`,
  `[a-zA-Z]`) are modelled over their ASCII meaning (the chat interface feeds
  typed text; the Unicode extensions of Python's `re` classes and `str.strip`
  are outside the model).
* Python dicts with a fixed key set (`candidate_data`) become structures with
  `Option` fields; the question cache dict becomes an association list where
  an insert prepends and lookup takes the first hit (latest write wins,
  matching dict semantics).
* Python `int` arithmetic on question numbers is embedded with `Int.emod`,
  which agrees with Python's `%` on a positive modulus.
-/

namespace TalentScout

/-! ## Python string primitives (ASCII model) -/

/-- Python's whitespace class `\s` / `str.strip` charset, ASCII fragment:
space, tab, newline, carriage return, vertical tab, form feed. -/
def isPySpace (c : Char) : Bool :=
  c == ' ' || c == '\t' || c == '\n' || c == '\r' || c == '\x0b' || c == '\x0c'

/-- Python `str.strip()`: drop leading and trailing whitespace. -/
def pyStrip (s : String) : String :=
  ⟨((s.data.dropWhile isPySpace).reverse.dropWhile isPySpace).reverse⟩

/-- Python `str.lower()` (ASCII fragment), as used for cache keys and
technology lookups. -/
def pyLower (s : String) : String := ⟨s.data.map Char.toLower⟩

/-- Boolean list-prefix test (needle, haystack). -/
def listPrefixB : List Char → List Char → Bool
  | [], _ => true
  | _ :: _, [] => false
  | a :: as, b :: bs => a == b && listPrefixB as bs

/-- Helper for `occursB`: substring search over the character list. -/
def occursAux (n : List Char) : List Char → Bool
  | [] => listPrefixB n []
  | c :: t => listPrefixB n (c :: t) || occursAux n t

/-- Python's `needle in haystack` substring containment. -/
def occursB (needle hay : String) : Bool := occursAux needle.data hay.data

/-- Split a character list at every comma (Python `str.split(',')`). -/
def splitCommaAux : List Char → List Char → List (List Char)
  | [], acc => [acc.reverse]
  | ',' :: t, acc => acc.reverse :: splitCommaAux t []
  | c :: t, acc => splitCommaAux t (c :: acc)

/-- Python `s.split(',')`. -/
def pySplitComma (s : String) : List String :=
  (splitCommaAux s.data []).map (fun l => ⟨l⟩)

/-- Numeric value of a decimal-digit character run, as Python `int(...)`. -/
def natOfDigits (l : List Char) : Nat :=
  l.foldl (fun a c => a * 10 + (c.toNat - 48)) 0

/-- `re.search(r'\d+', s)`: the first maximal run of decimal digits in `s`,
or `none` when `s` has no digit. -/
def firstDigitRun (s : String) : Option (List Char) :=
  match s.data.dropWhile (fun c => !c.isDigit) with
  | [] => none
  | c :: t => some ((c :: t).takeWhile Char.isDigit)

/-! ## The three validation regexes of `chatbot.py` (`required_fields`)

Each pattern is anchored (`re.match` + `$`) and built from character classes
and bounded repetition only, so each is embedded as a direct executable
matcher over the character list.  `database_handler.py` uses the identical
email pattern. -/

/-- `^[a-zA-Z\s]{2,50}$` — the name pattern. -/
def nameMatch (s : String) : Bool :=
  2 ≤ s.data.length && s.data.length ≤ 50
    && s.data.all (fun c => c.isAlpha || isPySpace c)

/-- Character class `[a-zA-Z0-9._%+-]` (email local part). -/
def emailLocalClass (c : Char) : Bool :=
  c.isAlpha || c.isDigit || c == '.' || c == '_' || c == '%' || c == '+' || c == '-'

/-- Character class `[a-zA-Z0-9.-]` (email domain). -/
def emailDomClass (c : Char) : Bool :=
  c.isAlpha || c.isDigit || c == '.' || c == '-'

/-- Split a character list at its first `'@'`: returns the characters before
it and after it.  The email pattern's local-part class excludes `'@'`, so the
regex necessarily splits at the first `'@'`. -/
def splitAtSign : List Char → Option (List Char × List Char)
  | [] => none
  | c :: t =>
    if c = '@' then some ([], t)
    else (splitAtSign t).map (fun p => (c :: p.1, p.2))

/-- Domain side of the email pattern, `[a-zA-Z0-9.-]+\.[a-zA-Z]{2,}$`:
the regex engine backtracks over which `'.'` starts the TLD, so the matcher
searches every split position `j`. -/
def emailDomainOk (rest : List Char) : Bool :=
  (List.range rest.length).any (fun j =>
    decide (1 ≤ j) && (rest.getD j ' ' == '.')
      && (rest.take j).all emailDomClass
      && (rest.drop (j + 1)).all Char.isAlpha
      && decide (2 ≤ rest.length - (j + 1)))

/-- `^[a-zA-Z0-9._%+-]+@[a-zA-Z0-9.-]+\.[a-zA-Z]{2,}$` — the email pattern,
shared by `chatbot.py` and `database_handler.py`. -/
def emailMatch (s : String) : Bool :=
  match splitAtSign s.data with
  | none => false
  | some (lp, rest) => !lp.isEmpty && lp.all emailLocalClass && emailDomainOk rest

/-- Character class `[\d\s\-\(\)\.]` (phone body). -/
def phoneClass (c : Char) : Bool :=
  c.isDigit || isPySpace c || c == '-' || c == '(' || c == ')' || c == '.'

/-- Body of the phone pattern: 8 to 20 characters of `phoneClass`. -/
def phoneBodyOk (l : List Char) : Bool :=
  8 ≤ l.length && l.length ≤ 20 && l.all phoneClass

/-- `^[\+]?[\d\s\-\(\)\.]{8,20}$` — the phone pattern.  The optional leading
`'+'` is not in the body class, so a string starting with `'+'` matches
exactly when its tail is a valid body. -/
def phoneMatch (s : String) : Bool :=
  match s.data with
  | c :: rest => if c = '+' then phoneBodyOk rest else phoneBodyOk (c :: rest)
  | [] => phoneBodyOk []

/-- Modelled from the spec wording of the email pattern (§3: "local@domain.tld,
domain has a dot, tld ≥ 2 letters"): an explicit decomposition into local
part, domain and alphabetic TLD.  Used to state the refinement claim C9. -/
def specEmailPattern (s : String) : Prop :=
  ∃ lp dom tld : List Char,
    s.data = lp ++ '@' :: (dom ++ '.' :: tld)
      ∧ lp ≠ [] ∧ (∀ c ∈ lp, emailLocalClass c = true)
      ∧ dom ≠ [] ∧ (∀ c ∈ dom, emailDomClass c = true)
      ∧ 2 ≤ tld.length ∧ (∀ c ∈ tld, c.isAlpha = true)

/-! ## `ai_question_generator.py` — AIQuestionGenerator

The generator's "AI" is `_generate_with_simple_ai`, a pure lookup over a
static nested table; `generate_question` adds a result cache keyed by
`"<technology.lower()>_<question_number>"`.  (`_create_question_prompt` only
builds a prompt string that `_generate_with_simple_ai` never consults, so it
plays no role in the returned questions.) -/

/-- A tier table: difficulty name to ordered question list. -/
abbrev TierTable := List (String × List String)

/-- Python `dict.get(k, d)` over an association list. -/
def lookupD (t : TierTable) (k : String) (d : List String) : List String :=
  match t.lookup k with
  | some v => v
  | none => d

/-- `difficulty_levels = {1: "basic", 2: "intermediate", 3: "advanced"}` with
`.get(question_number, "intermediate")`. -/
def difficultyOf (n : Nat) : String :=
  match n with
  | 1 => "basic"
  | 2 => "intermediate"
  | 3 => "advanced"
  | _ => "intermediate"

/-- The static `tech_questions` table of `_generate_with_simple_ai`, keys in
source (dict-insertion) order. -/
def tech_questions : List (String × TierTable) :=
  [ ("python",
      [ ("basic",
          [ "What are the key differences between lists and tuples in Python?",
            "Explain how Python's garbage collection works.",
            "What is the difference between '==' and 'is' operators in Python?" ]),
        ("intermediate",
          [ "How do decorators work in Python? Provide an example.",
            "Explain the concept of generators and their advantages over regular functions.",
            "What are context managers in Python and how do you implement them?" ]),
        ("advanced",
          [ "How would you implement a metaclass in Python and when would you use it?",
            "Explain the Global Interpreter Lock (GIL) and its impact on multithreading.",
            "How would you optimize Python code for better performance?" ]) ]),
    ("javascript",
      [ ("basic",
          [ "What is the difference between var, let, and const in JavaScript?",
            "Explain how hoisting works in JavaScript.",
            "What are the different data types in JavaScript?" ]),
        ("intermediate",
          [ "How do closures work in JavaScript? Provide an example.",
            "Explain event bubbling and event capturing.",
            "What is the difference between synchronous and asynchronous code?" ]),
        ("advanced",
          [ "How does the JavaScript event loop work?",
            "Explain prototypal inheritance in JavaScript.",
            "How would you implement a Promise from scratch?" ]) ]),
    ("react",
      [ ("basic",
          [ "What is the difference between state and props in React?",
            "Explain the concept of JSX.",
            "What are React components and how do you create them?" ]),
        ("intermediate",
          [ "How do React hooks work and why were they introduced?",
            "Explain the component lifecycle methods in React.",
            "What is the virtual DOM and how does it improve performance?" ]),
        ("advanced",
          [ "How would you optimize a React application for better performance?",
            "Explain React's reconciliation algorithm.",
            "How do you implement code splitting in React?" ]) ]),
    ("node.js",
      [ ("basic",
          [ "What is Node.js and how does it differ from browser JavaScript?",
            "Explain the concept of modules in Node.js.",
            "What is npm and how do you manage dependencies?" ]),
        ("intermediate",
          [ "How does the Node.js event loop work?",
            "Explain the difference between synchronous and asynchronous operations.",
            "How do you handle errors in Node.js applications?" ]),
        ("advanced",
          [ "How would you scale a Node.js application?",
            "Explain cluster and worker threads in Node.js.",
            "How do you implement caching strategies in Node.js?" ]) ]),
    ("java",
      [ ("basic",
          [ "What is the difference between abstract classes and interfaces in Java?",
            "Explain the concept of inheritance in Java.",
            "What are the different access modifiers in Java?" ]),
        ("intermediate",
          [ "How does garbage collection work in Java?",
            "Explain the concept of polymorphism with examples.",
            "What are generics in Java and why are they useful?" ]),
        ("advanced",
          [ "How do you optimize Java applications for better performance?",
            "Explain the Java memory model and its implications.",
            "How would you implement a custom thread pool in Java?" ]) ]),
    ("sql",
      [ ("basic",
          [ "What is the difference between INNER JOIN and LEFT JOIN?",
            "Explain the concept of primary keys and foreign keys.",
            "What are the different types of SQL commands?" ]),
        ("intermediate",
          [ "How do you optimize slow-running SQL queries?",
            "Explain database normalization and its benefits.",
            "What are indexes and how do they improve performance?" ]),
        ("advanced",
          [ "How would you design a database schema for a complex application?",
            "Explain ACID properties in database transactions.",
            "How do you handle database concurrency and locking?" ]) ]),
    ("mongodb",
      [ ("basic",
          [ "What is MongoDB and how does it differ from relational databases?",
            "Explain the concept of documents and collections.",
            "How do you perform basic CRUD operations in MongoDB?" ]),
        ("intermediate",
          [ "How do you design efficient MongoDB schemas?",
            "Explain indexing strategies in MongoDB.",
            "What are aggregation pipelines and how do you use them?" ]),
        ("advanced",
          [ "How would you implement sharding in MongoDB?",
            "Explain replica sets and their role in high availability.",
            "How do you optimize MongoDB performance?" ]) ]),
    ("docker",
      [ ("basic",
          [ "What is Docker and what problems does it solve?",
            "Explain the difference between Docker images and containers.",
            "How do you create a basic Dockerfile?" ]),
        ("intermediate",
          [ "How do you manage multi-container applications with Docker Compose?",
            "Explain Docker networking and volume management.",
            "What are the best practices for writing Dockerfiles?" ]),
        ("advanced",
          [ "How would you implement a CI/CD pipeline with Docker?",
            "Explain Docker orchestration with Kubernetes.",
            "How do you optimize Docker images for production?" ]) ]),
    ("kubernetes",
      [ ("basic",
          [ "What is Kubernetes and what problems does it solve?",
            "Explain the concept of pods, services, and deployments.",
            "How do you deploy an application to Kubernetes?" ]),
        ("intermediate",
          [ "How does Kubernetes handle service discovery and load balancing?",
            "Explain ConfigMaps and Secrets in Kubernetes.",
            "What are the different types of Kubernetes services?" ]),
        ("advanced",
          [ "How would you implement auto-scaling in Kubernetes?",
            "Explain Kubernetes networking and ingress controllers.",
            "How do you monitor and troubleshoot Kubernetes clusters?" ]) ]) ]

/-- The f-string `generic_questions` table, parameterized by the literal
technology string. -/
def generic_questions (technology : String) : TierTable :=
  [ ("basic",
      [ "What are the fundamental concepts you should know when working with "
          ++ technology ++ "?",
        "How would you explain " ++ technology
          ++ " to someone who's new to it?",
        "What are the main advantages of using " ++ technology
          ++ " in development?" ]),
    ("intermediate",
      [ "What are some best practices when developing with " ++ technology ++ "?",
        "How would you debug common issues in " ++ technology ++ " applications?",
        "What are the performance considerations when using " ++ technology ++ "?" ]),
    ("advanced",
      [ "How would you architect a large-scale application using " ++ technology ++ "?",
        "What are the advanced features of " ++ technology
          ++ " that you've worked with?",
        "How would you optimize and scale applications built with "
          ++ technology ++ "?" ]) ]

/-- Python `(question_number - 1) % len(qs)` (`Int.emod` agrees with Python's
`%` for the positive modulus), then used as a list index. -/
def cycleIndex (questionNumber : Nat) (len : Nat) : Nat :=
  (((questionNumber : Int) - 1).emod (len : Int)).toNat

/-- The `for key in tech_questions` partial-match loop: first key that is a
substring of the normalized technology or vice versa, whose tier list is
non-empty, yields its cycled question. -/
def partialMatchLoop (table : List (String × TierTable)) (techLower : String)
    (difficulty : String) (questionNumber : Nat) : Option String :=
  match table with
  | [] => none
  | (key, entry) :: rest =>
    if occursB key techLower || occursB techLower key then
      let qs := lookupD entry difficulty []
      if qs ≠ [] then some (qs.getD (cycleIndex questionNumber qs.length) "")
      else partialMatchLoop rest techLower difficulty questionNumber
    else partialMatchLoop rest techLower difficulty questionNumber

/-- `AIQuestionGenerator._generate_with_simple_ai` (the `prompt` argument is
never read, so it is dropped): exact-match lookup, then the substring
partial-match loop, then the generic templates. -/
def generate_with_simple_ai (technology : String) (questionNumber : Nat) :
    Option String :=
  let techLower := pyLower technology
  let difficulty := difficultyOf questionNumber
  let exact : Option String :=
    match tech_questions.lookup techLower with
    | some entry =>
      let qs := lookupD entry difficulty []
      if qs ≠ [] then some (qs.getD (cycleIndex questionNumber qs.length) "")
      else none
    | none => none
  match exact with
  | some q => some q
  | none =>
    match partialMatchLoop tech_questions techLower difficulty questionNumber with
    | some q => some q
    | none =>
      let qs := lookupD (generic_questions technology) difficulty
        (lookupD (generic_questions technology) "intermediate" [])
      some (qs.getD (cycleIndex questionNumber qs.length) "")

/-- The generator's `question_cache` dict: newest binding first. -/
abbrev QCache := List (String × String)

/-- `AIQuestionGenerator.generate_question`: cache check, generation, cache
fill.  Returns the question (`none` on failure — Python's `if question:`
also treats an empty string as failure) together with the updated cache. -/
def generate_question (cache : QCache) (technology : String)
    (questionNumber : Nat) : Option String × QCache :=
  let cacheKey := pyLower technology ++ "_" ++ toString questionNumber
  match cache.lookup cacheKey with
  | some v => (some v, cache)
  | none =>
    match generate_with_simple_ai technology questionNumber with
    | some q => if q = "" then (none, cache) else (some q, (cacheKey, q) :: cache)
    | none => (none, cache)

/-! ## `chatbot.py` — TalentScoutChatbot

`candidate_data` is a dict populated key by key as fields validate; it is
embedded as `Option` fields.  The chatbot owns one `AIQuestionGenerator`,
embedded as the `cache` field.  `questions_per_tech` is the constant 3. -/

/-- One chatbot instance: conversation state, candidate record, question
log, per-technology cursor and the generator cache. -/
structure Session where
  conversation_state : String
  name : Option String
  email : Option String
  phone : Option String
  experience : Option String
  position : Option String
  location : Option String
  tech_stack : Option (List String)
  technical_questions : List String
  current_tech_index : Nat
  cache : QCache
  deriving DecidableEq, Repr

/-- `TalentScoutChatbot.__init__`. -/
def initSession : Session :=
  { conversation_state := "greeting"
    name := none, email := none, phone := none, experience := none
    position := none, location := none, tech_stack := none
    technical_questions := [], current_tech_index := 0, cache := [] }

/-- `self.states` — the fixed conversation flow list. -/
def statesList : List String :=
  [ "greeting", "name", "email", "phone", "experience",
    "position", "location", "tech_stack", "technical_questions", "completed" ]

/-- Python `list.index` guarded by `in`: index of the first occurrence. -/
def listIndex (l : List String) (x : String) : Option Nat :=
  match l with
  | [] => none
  | a :: t => if a = x then some 0 else (listIndex t x).map (· + 1)

/-- `TalentScoutChatbot.get_progress`: the source computes
`int((current_index / len(self.states)) * 100)` in IEEE doubles; for the ten
possible indices 0..9 that float expression evaluates exactly to the integer
`100 * i / 10` (each product `double(i/10) * 100` rounds to the exact integer
`10 * i`, which `int` truncates to itself), so the embedding uses the integer
form.  States outside the list (e.g. `"ended"`) give 0. -/
def get_progress (σ : Session) : Nat :=
  match listIndex statesList σ.conversation_state with
  | some i => 100 * i / 10
  | none => 0

/-- `start_conversation`. -/
def start_conversation (σ : Session) : Session × String :=
  ({ σ with conversation_state := "name" },
   "Hi! I'm here to help with your application. **What's your full name?**")

/-- `_complete_technical_assessment` (the summary enumerates the declared
technologies; `tech_stack` is present in every reachable caller). -/
def complete_technical_assessment (σ : Session) : Session × String :=
  let ts := σ.tech_stack.getD []
  ({ σ with conversation_state := "completed" },
   "\n🎉 **Technical Assessment Complete!**\n\n"
     ++ "Thank you for answering the technical questions! I've assessed your knowledge across "
     ++ toString ts.length ++ " technologies: "
     ++ String.intercalate ", " ts ++ ".\n\n"
     ++ "**Next Steps:**\n"
     ++ "• Our technical team will review your responses\n"
     ++ "• You'll receive an email within 2-3 business days with feedback\n"
     ++ "• If you advance, we'll schedule a technical interview\n"
     ++ "• For any questions, contact us at hr@talentscout.com\n\n"
     ++ "Is there anything else you'd like to know about the position or our company? "
     ++ "Otherwise, you can type 'exit' to end our conversation.")

/-- Recursion core of `_generate_next_technical_questions`, structurally
recursive on a fuel bound.  The source recursion advances
`current_tech_index` by one per skip, so it takes at most
`len(tech_stack) - current_tech_index` skip steps; a fuel of one more than
that makes the fuel-exhausted base case unreachable (each skip lowers the
remaining count and the fuel by one together, so the fuel stays one above
the remaining count at every recursive call). -/
def generate_next_aux : Nat → Session → Session × String
  | 0, σ => complete_technical_assessment σ
  | fuel + 1, σ =>
    let ts := σ.tech_stack.getD []
    let currentTech := ts.getD σ.current_tech_index ""
    let questionsForCurrent := σ.technical_questions.length % 3
    let intro :=
      if questionsForCurrent = 0 then
        "\n🔧 **Technical Assessment: " ++ currentTech ++ "**\n\n"
          ++ "I'll ask you 3 questions about " ++ currentTech ++ ". "
          ++ "Please answer to the best of your ability.\n\n"
      else ""
    let gen := generate_question σ.cache currentTech (questionsForCurrent + 1)
    let σc := { σ with cache := gen.2 }
    match gen.1 with
    | some q =>
      if q = "" then
        let σs := { σc with current_tech_index := σc.current_tech_index + 1 }
        if σs.current_tech_index ≥ ts.length then complete_technical_assessment σs
        else generate_next_aux fuel σs
      else
        ({ σc with technical_questions := σc.technical_questions ++ [q] },
         intro ++ "**Question " ++ toString (questionsForCurrent + 1)
           ++ " (" ++ currentTech ++ "):** " ++ q)
    | none =>
      let σs := { σc with current_tech_index := σc.current_tech_index + 1 }
      if σs.current_tech_index ≥ ts.length then complete_technical_assessment σs
      else generate_next_aux fuel σs

/-- `_generate_next_technical_questions`.  Reads the current technology
(`tech_stack[current_tech_index]`, embedded with a `getD` default — every
reachable call has the index in range), asks the generator, and appends the
question; if generation fails (`if question:` falsy) it skips to the next
technology, recursing until the stack is exhausted. -/
def generate_next_technical_questions (σ : Session) : Session × String :=
  generate_next_aux
    ((σ.tech_stack.getD []).length - σ.current_tech_index + 1) σ

/-- `_handle_name`. -/
def handle_name (σ : Session) (t : String) : Session × String :=
  if nameMatch t then
    ({ σ with name := some t, conversation_state := "email" },
     "Nice to meet you, " ++ t ++ "! 👋\n\n**What's your email address?**")
  else
    (σ, "Please provide a valid full name (2-50 characters, letters and spaces only). "
      ++ "**What's your full name?**")

/-- `_handle_email`. -/
def handle_email (σ : Session) (t : String) : Session × String :=
  if emailMatch t then
    ({ σ with email := some t, conversation_state := "phone" },
     "Great! **What's your phone number?**")
  else
    (σ, "Please provide a valid email address (e.g., john.doe@example.com). "
      ++ "**What's your email address?**")

/-- `_handle_phone`. -/
def handle_phone (σ : Session) (t : String) : Session × String :=
  if phoneMatch t then
    ({ σ with phone := some t, conversation_state := "experience" },
     "Perfect! **How many years of professional experience do you have?**")
  else
    (σ, "Please provide a valid phone number (8-15 digits, may include +, spaces, dashes, or parentheses). "
      ++ "**What's your phone number?**")

/-- `_handle_experience`: `re.search(r'\d+', ...)`, accept when the parsed
integer is in `[0, 50]` (a digit run is non-negative, so only the upper bound
cuts). -/
def handle_experience (σ : Session) (t : String) : Session × String :=
  match firstDigitRun t with
  | some run =>
    if natOfDigits run ≤ 50 then
      ({ σ with experience := some (toString (natOfDigits run) ++ " years"),
                conversation_state := "position" },
       "Excellent! **What position(s) are you interested in or applying for?**")
    else
      (σ, "Please provide a valid number of years of experience (0-50 years). "
        ++ "You can say something like '3 years' or just '3'. "
        ++ "**How many years of professional experience do you have?**")
  | none =>
    (σ, "Please provide a valid number of years of experience (0-50 years). "
      ++ "You can say something like '3 years' or just '3'. "
      ++ "**How many years of professional experience do you have?**")

/-- `_handle_position`. -/
def handle_position (σ : Session) (t : String) : Session × String :=
  if 2 ≤ t.data.length then
    ({ σ with position := some t, conversation_state := "location" },
     "Great choice! **What's your current location (city, country)?**")
  else
    (σ, "Please provide the position you're interested in (at least 2 characters). "
      ++ "**What position(s) are you interested in or applying for?**")

/-- `_handle_location`. -/
def handle_location (σ : Session) (t : String) : Session × String :=
  if 2 ≤ t.data.length then
    ({ σ with location := some t, conversation_state := "tech_stack" },
     "Perfect! Now let's talk about your technical skills. 💻\n\n"
       ++ "**Please list your tech stack** - including programming languages, frameworks, "
       ++ "databases, tools, and any other technologies you're proficient in. "
       ++ "You can separate them with commas.\n\n"
       ++ "*Example: Python, JavaScript, React, Django, PostgreSQL, Docker*")
  else
    (σ, "Please provide your current location (at least 2 characters). "
      ++ "**What's your current location (city, country)?**")

/-- `_handle_tech_stack`: split on commas, strip, drop empties; on success
start the quiz and immediately emit the first question. -/
def handle_tech_stack (σ : Session) (t : String) : Session × String :=
  let techStack := ((pySplitComma t).map pyStrip).filter (fun x => x ≠ "")
  if 1 ≤ techStack.length then
    generate_next_technical_questions
      { σ with tech_stack := some techStack,
               conversation_state := "technical_questions",
               current_tech_index := 0 }
  else
    (σ, "Please provide at least one technology from your tech stack. "
      ++ "You can separate multiple technologies with commas. "
      ++ "**Please list your tech stack:**")

/-- `_handle_technical_questions`.  The source binds
`current_tech = candidate_data["tech_stack"][current_tech_index]` and never
uses it (dead code); the user's answer text is ignored entirely, so the
handler takes no input argument here.  Every third answer moves to the next
technology or completes the assessment. -/
def handle_technical_questions (σ : Session) : Session × String :=
  if σ.technical_questions.length % 3 = 0 then
    let σs := { σ with current_tech_index := σ.current_tech_index + 1 }
    if σs.current_tech_index ≥ (σ.tech_stack.getD []).length then
      complete_technical_assessment σs
    else generate_next_technical_questions σs
  else generate_next_technical_questions σ

/-- The `_handle_fallback` message for the `completed` state ("screening
already complete"). -/
def screeningCompleteMessage : String :=
  "Our initial screening is complete! If you have any questions about the position "
    ++ "or TalentScout, I'm happy to help. Otherwise, you can type 'exit' to end our conversation."

/-- The `_handle_fallback` message for every other unhandled state. -/
def fallbackGenericMessage : String :=
  "I'm not sure I understand. Could you please provide the information I requested? "
    ++ "If you need help, you can type 'exit' to end our conversation."

/-- `_handle_fallback`. -/
def handle_fallback (σ : Session) : Session × String :=
  if σ.conversation_state = "completed" then (σ, screeningCompleteMessage)
  else (σ, fallbackGenericMessage)

/-- `process_input`: strip, reject empty input, dispatch on the conversation
state. -/
def process_input (σ : Session) (userInput : String) : Session × String :=
  let t := pyStrip userInput
  if t = "" then
    (σ, "I didn't receive any input. Could you please try again?")
  else if σ.conversation_state = "name" then handle_name σ t
  else if σ.conversation_state = "email" then handle_email σ t
  else if σ.conversation_state = "phone" then handle_phone σ t
  else if σ.conversation_state = "experience" then handle_experience σ t
  else if σ.conversation_state = "position" then handle_position σ t
  else if σ.conversation_state = "location" then handle_location σ t
  else if σ.conversation_state = "tech_stack" then handle_tech_stack σ t
  else if σ.conversation_state = "technical_questions" then
    handle_technical_questions σ
  else handle_fallback σ

/-- The farewell text of `end_conversation`, whose middle sentence appears
when `candidate_data` (the dict) is non-empty. -/
def farewellMessage (recordNonempty : Bool) : String :=
  "\n👋 **Thank you for your time!**\n\n"
    ++ (if recordNonempty then "I've recorded all the information you provided. " else "")
    ++ "Our team will review your details and get back to you soon.\n\n"
    ++ "**Next Steps:**\n"
    ++ "• Check your email for confirmation and next steps\n"
    ++ "• Our team will contact you within 2-3 business days\n"
    ++ "• Keep an eye out for updates about your application status\n\n"
    ++ "**Contact Information:**\n"
    ++ "📧 hr@talentscout.com\n"
    ++ "📱 +1 (555) 123-4567\n"
    ++ "🌐 www.talentscout.com\n\n"
    ++ "Good luck with your application! 🍀"

/-- `end_conversation`: unconditional transition to `"ended"` plus the
farewell. -/
def end_conversation (σ : Session) : Session × String :=
  ({ σ with conversation_state := "ended" },
   farewellMessage
     (σ.name.isSome || σ.email.isSome || σ.phone.isSome || σ.experience.isSome
       || σ.position.isSome || σ.location.isSome || σ.tech_stack.isSome))

/-- Fold a list of user inputs through `process_input` (states only). -/
def runInputs (σ : Session) (inputs : List String) : Session :=
  inputs.foldl (fun σ s => (process_input σ s).1) σ

/-! ## `database_handler.py` — DatabaseHandler

The persistence backend (SQLAlchemy session, wall-clock timestamps, the
retention sweep) is the external RecordStore collaborator; the embedded
fragment is the validation gate and the upsert-by-candidate-id structure that
decide claim C9.  A candidate dict is embedded with its two required keys as
plain strings (a missing key and an empty value are both falsy in the
source's `field not in data or not data[field]` check, so both collapse to
`""`); `_generate_candidate_id` builds on Python's process-salted `hash` and
is therefore taken as a parameter. -/

/-- The candidate dict as passed to `save_candidate_data` (remaining keys play
no role in validation). -/
structure CandidateData where
  name : String
  email : String
  deriving DecidableEq, Repr

/-- `_validate_candidate_data`: required keys present and truthy, then the
email regex. -/
def validate_candidate_data (d : CandidateData) : Bool :=
  !(d.name == "") && !(d.email == "") && emailMatch d.email

/-- The candidates table keyed by `candidate_id`. -/
abbrev CandidateStore := List (String × CandidateData)

/-- `save_candidate_data`: reject invalid data without touching the store,
otherwise upsert under the derived id. -/
def save_candidate_data (genId : CandidateData → String)
    (store : CandidateStore) (d : CandidateData) : Bool × CandidateStore :=
  if !validate_candidate_data d then (false, store)
  else
    let cid := genId d
    if store.any (fun p => p.1 == cid) then
      (true, store.map (fun p => if p.1 == cid then (cid, d) else p))
    else
      (true, store ++ [(cid, d)])

/-! ## Lemmas: the question bank never fails -/

/-- Cache well-formedness: every cached question is non-empty.  Holds for the
fresh cache and is preserved by `generate_question`, which only caches the
questions it returns. -/
def cacheWF (cache : QCache) : Prop := ∀ p ∈ cache, p.2 ≠ ""

/-- An association-list hit yields a stored value. -/
theorem lookup_mem {β : Type} {l : List (String × β)} {k : String} {v : β}
    (h : l.lookup k = some v) : ∃ k', (k', v) ∈ l := by
  induction l with
  | nil => simp [List.lookup] at h
  | cons p t ih =>
    rw [List.lookup] at h
    by_cases hk : k == p.1
    · refine ⟨p.1, ?_⟩
      simp [hk] at h
      simp [← h]
    · simp [hk] at h
      obtain ⟨k', hk'⟩ := ih h
      exact ⟨k', List.mem_cons_of_mem _ hk'⟩

/-- `difficultyOf` always lands in the three tier names. -/
theorem difficultyOf_mem (n : Nat) :
    difficultyOf n ∈ (["basic", "intermediate", "advanced"] : List String) := by
  unfold difficultyOf
  split <;> simp

/-- Every tier list reachable through the static table under a genuine
difficulty name is non-empty with non-empty questions. -/
theorem table_sound :
    (tech_questions.all (fun p =>
      (["basic", "intermediate", "advanced"] : List String).all (fun d =>
        !(lookupD p.2 d []).isEmpty
          && (lookupD p.2 d []).all (fun q => !(q == ""))))) = true := by
  decide

/-- The cycling index is a valid index whenever the list is non-empty. -/
theorem cycleIndex_lt (n len : Nat) (h : 0 < len) : cycleIndex n len < len := by
  unfold cycleIndex
  have hlt : ((n : Int) - 1).emod (len : Int) < (len : Int) :=
    Int.emod_lt_of_pos _ (by exact_mod_cast h)
  have hge : 0 ≤ ((n : Int) - 1).emod (len : Int) :=
    Int.emod_nonneg _ (by positivity)
  omega

/-- Cycled selection from an all-non-empty, non-empty list is non-empty. -/
theorem getD_cycle_ne (qs : List String) (n : Nat) (hne : qs ≠ [])
    (hall : qs.all (fun q => !(q == "")) = true) :
    qs.getD (cycleIndex n qs.length) "" ≠ "" := by
  have hlen : 0 < qs.length := List.length_pos.mpr hne
  have hidx := cycleIndex_lt n qs.length hlen
  rw [List.getD_eq_getElem qs "" hidx]
  have hmem := List.getElem_mem hidx
  have := List.all_eq_true.mp hall _ hmem
  simpa using this

/-- The partial-match loop only returns questions from the table's tier
lists, hence non-empty ones. -/
theorem partialMatchLoop_ne (table : List (String × TierTable))
    (tl d : String) (n : Nat)
    (hs : ∀ p ∈ table, (lookupD p.2 d []).all (fun q => !(q == "")) = true) :
    ∀ q, partialMatchLoop table tl d n = some q → q ≠ "" := by
  induction table with
  | nil => intro q h; simp [partialMatchLoop] at h
  | cons p t ih =>
    intro q h
    rw [partialMatchLoop] at h
    by_cases hm : (occursB p.1 tl || occursB tl p.1) = true
    · rw [if_pos hm] at h
      by_cases hqs : lookupD p.2 d [] ≠ []
      · rw [if_pos hqs] at h
        have := getD_cycle_ne (lookupD p.2 d []) n hqs (hs p (by simp))
        rw [Option.some_inj.mp h] at this
        exact this
      · rw [if_neg hqs] at h
        exact ih (fun p hp => hs p (List.mem_cons_of_mem _ hp)) q h
    · rw [if_neg hm] at h
      exact ih (fun p hp => hs p (List.mem_cons_of_mem _ hp)) q h

/-- A three-part concatenation with a non-empty head literal is non-empty. -/
theorem append3_ne (a b c : String) (h : 0 < a.length) : a ++ b ++ c ≠ "" := by
  intro hc
  have hlen := congrArg String.length hc
  rw [String.length_append, String.length_append] at hlen
  have hz : ("" : String).length = 0 := rfl
  omega

/-- The generic template family always offers a non-empty 3-question list,
whatever the literal technology string and difficulty key. -/
theorem generic_sound (tech d : String) :
    lookupD (generic_questions tech) d
        (lookupD (generic_questions tech) "intermediate" []) ≠ []
      ∧ (lookupD (generic_questions tech) d
          (lookupD (generic_questions tech) "intermediate" [])).all
            (fun q => !(q == "")) = true := by
  have key : ∀ (a b : String), 0 < a.length → (!((a ++ tech ++ b) == "")) = true := by
    intro a b ha
    simp only [Bool.not_eq_true', beq_eq_false_iff_ne, ne_eq]
    exact append3_ne a tech b ha
  by_cases hb : d = "basic"
  · subst hb
    refine ⟨by simp [lookupD, generic_questions, List.lookup], ?_⟩
    simp only [lookupD, generic_questions, List.lookup]
    simp only [List.all, List.foldr, Bool.and_eq_true, Bool.and_true]
    exact ⟨key _ _ (by decide), key _ _ (by decide), key _ _ (by decide)⟩
  · by_cases hi : d = "intermediate"
    · subst hi
      refine ⟨by simp [lookupD, generic_questions, List.lookup], ?_⟩
      simp only [lookupD, generic_questions, List.lookup]
      simp only [List.all, List.foldr, Bool.and_eq_true, Bool.and_true]
      exact ⟨key _ _ (by decide), key _ _ (by decide), key _ _ (by decide)⟩
    · by_cases ha : d = "advanced"
      · subst ha
        refine ⟨by simp [lookupD, generic_questions, List.lookup], ?_⟩
        simp only [lookupD, generic_questions, List.lookup]
        simp only [List.all, List.foldr, Bool.and_eq_true, Bool.and_true]
        exact ⟨key _ _ (by decide), key _ _ (by decide), key _ _ (by decide)⟩
      · have eb : (d == "basic") = false := beq_eq_false_iff_ne.mpr hb
        have ei : (d == "intermediate") = false := beq_eq_false_iff_ne.mpr hi
        have ea : (d == "advanced") = false := beq_eq_false_iff_ne.mpr ha
        refine ⟨by simp [lookupD, generic_questions, List.lookup, eb, ei, ea], ?_⟩
        simp only [lookupD, generic_questions, List.lookup, eb, ei, ea]
        simp only [List.all, List.foldr, Bool.and_eq_true, Bool.and_true]
        exact ⟨key _ _ (by decide), key _ _ (by decide), key _ _ (by decide)⟩

/-- `_generate_with_simple_ai` is total in effect: it always produces a
non-empty question, for every technology string and question number. -/
theorem generate_with_simple_ai_ne (tech : String) (n : Nat) :
    ∃ q, generate_with_simple_ai tech n = some q ∧ q ≠ "" := by
  have htab : ∀ p ∈ tech_questions,
      lookupD p.2 (difficultyOf n) [] ≠ [] ∧
      (lookupD p.2 (difficultyOf n) []).all (fun q => !(q == "")) = true := by
    intro p hp
    have h1 := List.all_eq_true.mp table_sound p hp
    have h2 := List.all_eq_true.mp h1 _ (difficultyOf_mem n)
    have h3 := (Bool.and_eq_true _ _).mp h2
    refine ⟨?_, h3.2⟩
    have := h3.1
    simp only [Bool.not_eq_true'] at this
    exact fun hc => by simp [hc] at this
  unfold generate_with_simple_ai
  cases hl : tech_questions.lookup (pyLower tech) with
  | some entry =>
    obtain ⟨k', hmem⟩ := lookup_mem hl
    obtain ⟨hqs, hall⟩ := htab _ hmem
    simp only [hl]
    rw [if_pos hqs]
    exact ⟨_, rfl, getD_cycle_ne _ n hqs hall⟩
  | none =>
    simp only [hl]
    cases hp : partialMatchLoop tech_questions (pyLower tech) (difficultyOf n) n with
    | some q =>
      exact ⟨q, rfl,
        partialMatchLoop_ne tech_questions (pyLower tech) (difficultyOf n) n
          (fun p hp' => (htab p hp').2) q hp⟩
    | none =>
      obtain ⟨hne, hall⟩ := generic_sound tech (difficultyOf n)
      exact ⟨_, rfl, getD_cycle_ne _ n hne hall⟩

/-- `generate_question` on a well-formed cache: always a non-empty question,
and the cache stays well-formed. -/
theorem generate_question_spec (cache : QCache) (tech : String) (n : Nat)
    (hwf : cacheWF cache) :
    ∃ q, (generate_question cache tech n).1 = some q ∧ q ≠ ""
      ∧ cacheWF (generate_question cache tech n).2 := by
  unfold generate_question
  cases hc : cache.lookup (pyLower tech ++ "_" ++ toString n) with
  | some v =>
    obtain ⟨k', hmem⟩ := lookup_mem hc
    exact ⟨v, by simp [hc], hwf _ hmem, by simpa [hc] using hwf⟩
  | none =>
    obtain ⟨q, hq, hqne⟩ := generate_with_simple_ai_ne tech n
    rw [hq]
    simp only [hc]
    rw [if_neg hqne]
    refine ⟨q, rfl, hqne, ?_⟩
    intro p hp
    rcases List.mem_cons.mp hp with h | h
    · rw [h]; exact hqne
    · exact hwf _ h

/-- With a well-formed cache, `_generate_next_technical_questions` never
takes its skip-technology branch: it appends exactly one (non-empty)
question, leaving state, candidate record and technology cursor untouched. -/
theorem generate_next_spec (σ : Session) (hwf : cacheWF σ.cache) :
    ∃ q cache', q ≠ "" ∧ cacheWF cache' ∧
      (generate_next_technical_questions σ).1 =
        { σ with cache := cache',
                 technical_questions := σ.technical_questions ++ [q] } := by
  obtain ⟨q, hq, hqne, hwf'⟩ :=
    generate_question_spec σ.cache
      ((σ.tech_stack.getD []).getD σ.current_tech_index "")
      (σ.technical_questions.length % 3 + 1) hwf
  refine ⟨q, (generate_question σ.cache
      ((σ.tech_stack.getD []).getD σ.current_tech_index "")
      (σ.technical_questions.length % 3 + 1)).2, hqne, hwf', ?_⟩
  rw [generate_next_technical_questions, generate_next_aux]
  simp only [hq]
  rw [if_neg hqne]

/-! ## The reachable-session invariant and the single-step lemma -/

/-- Once a candidate field holds a value, a step never changes it (and
`tech_stack`, once set, keeps its list). -/
def recordPreserved (σ σ' : Session) : Prop :=
  (∀ v, σ.name = some v → σ'.name = some v)
    ∧ (∀ v, σ.email = some v → σ'.email = some v)
    ∧ (∀ v, σ.phone = some v → σ'.phone = some v)
    ∧ (∀ v, σ.experience = some v → σ'.experience = some v)
    ∧ (∀ v, σ.position = some v → σ'.position = some v)
    ∧ (∀ v, σ.location = some v → σ'.location = some v)
    ∧ (∀ v, σ.tech_stack = some v → σ'.tech_stack = some v)

theorem recordPreserved_refl (σ : Session) : recordPreserved σ σ :=
  ⟨fun _ h => h, fun _ h => h, fun _ h => h, fun _ h => h,
   fun _ h => h, fun _ h => h, fun _ h => h⟩

theorem recordPreserved_trans {σ₁ σ₂ σ₃ : Session}
    (h1 : recordPreserved σ₁ σ₂) (h2 : recordPreserved σ₂ σ₃) :
    recordPreserved σ₁ σ₃ :=
  ⟨fun v h => h2.1 v (h1.1 v h),
   fun v h => h2.2.1 v (h1.2.1 v h),
   fun v h => h2.2.2.1 v (h1.2.2.1 v h),
   fun v h => h2.2.2.2.1 v (h1.2.2.2.1 v h),
   fun v h => h2.2.2.2.2.1 v (h1.2.2.2.2.1 v h),
   fun v h => h2.2.2.2.2.2.1 v (h1.2.2.2.2.2.1 v h),
   fun v h => h2.2.2.2.2.2.2 v (h1.2.2.2.2.2.2 v h)⟩

/-- Invariant of every session reachable from `start_conversation`: the cache
is well-formed, and a field-collecting state still has its own and all later
fields unset (fields are written exactly on leaving their state). -/
def Inv (σ : Session) : Prop :=
  cacheWF σ.cache
    ∧ (σ.conversation_state = "name" →
        σ.name = none ∧ σ.email = none ∧ σ.phone = none ∧ σ.experience = none
          ∧ σ.position = none ∧ σ.location = none ∧ σ.tech_stack = none)
    ∧ (σ.conversation_state = "email" →
        σ.email = none ∧ σ.phone = none ∧ σ.experience = none
          ∧ σ.position = none ∧ σ.location = none ∧ σ.tech_stack = none)
    ∧ (σ.conversation_state = "phone" →
        σ.phone = none ∧ σ.experience = none ∧ σ.position = none
          ∧ σ.location = none ∧ σ.tech_stack = none)
    ∧ (σ.conversation_state = "experience" →
        σ.experience = none ∧ σ.position = none ∧ σ.location = none
          ∧ σ.tech_stack = none)
    ∧ (σ.conversation_state = "position" →
        σ.position = none ∧ σ.location = none ∧ σ.tech_stack = none)
    ∧ (σ.conversation_state = "location" →
        σ.location = none ∧ σ.tech_stack = none)
    ∧ (σ.conversation_state = "tech_stack" → σ.tech_stack = none)

/-- Conclusion bundle of one `process_input` step. -/
def StepOK (σ σ' : Session) : Prop :=
  Inv σ' ∧ recordPreserved σ σ'
    ∧ σ.technical_questions <+: σ'.technical_questions
    ∧ get_progress σ ≤ get_progress σ'

theorem stepOK_refl {σ : Session} (hInv : Inv σ) : StepOK σ σ :=
  ⟨hInv, recordPreserved_refl σ, List.prefix_refl _, le_refl _⟩

theorem handle_name_ok (σ : Session) (t : String) (hInv : Inv σ)
    (hst : σ.conversation_state = "name") : StepOK σ (handle_name σ t).1 := by
  obtain ⟨hwf, hname, _⟩ := hInv
  obtain ⟨n1, n2, n3, n4, n5, n6, n7⟩ := hname hst
  unfold handle_name
  by_cases hm : nameMatch t = true
  · rw [if_pos hm]
    refine ⟨⟨hwf, ?_, ?_, ?_, ?_, ?_, ?_, ?_⟩,
      ⟨?_, fun _ h => h, fun _ h => h, fun _ h => h, fun _ h => h, fun _ h => h,
        fun _ h => h⟩, List.prefix_refl _, ?_⟩
    · intro h; simp at h
    · exact fun _ => ⟨n2, n3, n4, n5, n6, n7⟩
    · intro h; simp at h
    · intro h; simp at h
    · intro h; simp at h
    · intro h; simp at h
    · intro h; simp at h
    · intro v hv; rw [n1] at hv; simp at hv
    · simp [get_progress, listIndex, statesList, hst]
  · rw [if_neg hm]
    exact stepOK_refl ⟨hwf, fun _ => ⟨n1, n2, n3, n4, n5, n6, n7⟩,
      fun h => absurd (hst.symm.trans h) (by decide),
      fun h => absurd (hst.symm.trans h) (by decide),
      fun h => absurd (hst.symm.trans h) (by decide),
      fun h => absurd (hst.symm.trans h) (by decide),
      fun h => absurd (hst.symm.trans h) (by decide),
      fun h => absurd (hst.symm.trans h) (by decide)⟩

theorem handle_email_ok (σ : Session) (t : String) (hInv : Inv σ)
    (hst : σ.conversation_state = "email") : StepOK σ (handle_email σ t).1 := by
  obtain ⟨hwf, hname, hemail, hrest⟩ := hInv
  obtain ⟨n2, n3, n4, n5, n6, n7⟩ := hemail hst
  unfold handle_email
  by_cases hm : emailMatch t = true
  · rw [if_pos hm]
    refine ⟨⟨hwf, ?_, ?_, ?_, ?_, ?_, ?_, ?_⟩,
      ⟨fun _ h => h, ?_, fun _ h => h, fun _ h => h, fun _ h => h, fun _ h => h,
        fun _ h => h⟩, List.prefix_refl _, ?_⟩
    · intro h; simp at h
    · intro h; simp at h
    · exact fun _ => ⟨n3, n4, n5, n6, n7⟩
    · intro h; simp at h
    · intro h; simp at h
    · intro h; simp at h
    · intro h; simp at h
    · intro v hv; rw [n2] at hv; simp at hv
    · simp [get_progress, listIndex, statesList, hst]
  · rw [if_neg hm]
    refine stepOK_refl ⟨hwf, ?_, fun _ => ⟨n2, n3, n4, n5, n6, n7⟩, ?_, ?_, ?_, ?_, ?_⟩ <;>
      exact fun h => absurd (hst.symm.trans h) (by decide)

theorem handle_phone_ok (σ : Session) (t : String) (hInv : Inv σ)
    (hst : σ.conversation_state = "phone") : StepOK σ (handle_phone σ t).1 := by
  obtain ⟨hwf, hname, hemail, hphone, hrest⟩ := hInv
  obtain ⟨n3, n4, n5, n6, n7⟩ := hphone hst
  unfold handle_phone
  by_cases hm : phoneMatch t = true
  · rw [if_pos hm]
    refine ⟨⟨hwf, ?_, ?_, ?_, ?_, ?_, ?_, ?_⟩,
      ⟨fun _ h => h, fun _ h => h, ?_, fun _ h => h, fun _ h => h, fun _ h => h,
        fun _ h => h⟩, List.prefix_refl _, ?_⟩
    · intro h; simp at h
    · intro h; simp at h
    · intro h; simp at h
    · exact fun _ => ⟨n4, n5, n6, n7⟩
    · intro h; simp at h
    · intro h; simp at h
    · intro h; simp at h
    · intro v hv; rw [n3] at hv; simp at hv
    · simp [get_progress, listIndex, statesList, hst]
  · rw [if_neg hm]
    refine stepOK_refl ⟨hwf, ?_, ?_, fun _ => ⟨n3, n4, n5, n6, n7⟩, ?_, ?_, ?_, ?_⟩ <;>
      exact fun h => absurd (hst.symm.trans h) (by decide)

theorem handle_experience_ok (σ : Session) (t : String) (hInv : Inv σ)
    (hst : σ.conversation_state = "experience") :
    StepOK σ (handle_experience σ t).1 := by
  obtain ⟨hwf, hname, hemail, hphone, hexp, hrest⟩ := hInv
  obtain ⟨n4, n5, n6, n7⟩ := hexp hst
  have hrej : StepOK σ σ := stepOK_refl ⟨hwf,
    fun h => absurd (hst.symm.trans h) (by decide),
    fun h => absurd (hst.symm.trans h) (by decide),
    fun h => absurd (hst.symm.trans h) (by decide),
    fun _ => ⟨n4, n5, n6, n7⟩,
    fun h => absurd (hst.symm.trans h) (by decide),
    fun h => absurd (hst.symm.trans h) (by decide),
    fun h => absurd (hst.symm.trans h) (by decide)⟩
  unfold handle_experience
  split
  · split
    · refine ⟨⟨hwf, ?_, ?_, ?_, ?_, ?_, ?_, ?_⟩,
        ⟨fun _ h => h, fun _ h => h, fun _ h => h, ?_, fun _ h => h, fun _ h => h,
          fun _ h => h⟩, List.prefix_refl _, ?_⟩
      · intro h; simp at h
      · intro h; simp at h
      · intro h; simp at h
      · intro h; simp at h
      · exact fun _ => ⟨n5, n6, n7⟩
      · intro h; simp at h
      · intro h; simp at h
      · intro v hv; rw [n4] at hv; simp at hv
      · simp [get_progress, listIndex, statesList, hst]
    · exact hrej
  · exact hrej

theorem handle_position_ok (σ : Session) (t : String) (hInv : Inv σ)
    (hst : σ.conversation_state = "position") :
    StepOK σ (handle_position σ t).1 := by
  obtain ⟨hwf, hname, hemail, hphone, hexp, hpos, hrest⟩ := hInv
  obtain ⟨n5, n6, n7⟩ := hpos hst
  unfold handle_position
  by_cases hm : 2 ≤ t.data.length
  · rw [if_pos hm]
    refine ⟨⟨hwf, ?_, ?_, ?_, ?_, ?_, ?_, ?_⟩,
      ⟨fun _ h => h, fun _ h => h, fun _ h => h, fun _ h => h, ?_, fun _ h => h,
        fun _ h => h⟩, List.prefix_refl _, ?_⟩
    · intro h; simp at h
    · intro h; simp at h
    · intro h; simp at h
    · intro h; simp at h
    · intro h; simp at h
    · exact fun _ => ⟨n6, n7⟩
    · intro h; simp at h
    · intro v hv; rw [n5] at hv; simp at hv
    · simp [get_progress, listIndex, statesList, hst]
  · rw [if_neg hm]
    refine stepOK_refl ⟨hwf, ?_, ?_, ?_, ?_, fun _ => ⟨n5, n6, n7⟩, ?_, ?_⟩ <;>
      exact fun h => absurd (hst.symm.trans h) (by decide)

theorem handle_location_ok (σ : Session) (t : String) (hInv : Inv σ)
    (hst : σ.conversation_state = "location") :
    StepOK σ (handle_location σ t).1 := by
  obtain ⟨hwf, hname, hemail, hphone, hexp, hpos, hloc, hts⟩ := hInv
  obtain ⟨n6, n7⟩ := hloc hst
  unfold handle_location
  by_cases hm : 2 ≤ t.data.length
  · rw [if_pos hm]
    refine ⟨⟨hwf, ?_, ?_, ?_, ?_, ?_, ?_, ?_⟩,
      ⟨fun _ h => h, fun _ h => h, fun _ h => h, fun _ h => h, fun _ h => h, ?_,
        fun _ h => h⟩, List.prefix_refl _, ?_⟩
    · intro h; simp at h
    · intro h; simp at h
    · intro h; simp at h
    · intro h; simp at h
    · intro h; simp at h
    · intro h; simp at h
    · exact fun _ => n7
    · intro v hv; rw [n6] at hv; simp at hv
    · simp [get_progress, listIndex, statesList, hst]
  · rw [if_neg hm]
    refine stepOK_refl ⟨hwf, ?_, ?_, ?_, ?_, ?_, fun _ => ⟨n6, n7⟩, ?_⟩ <;>
      exact fun h => absurd (hst.symm.trans h) (by decide)

theorem handle_tech_stack_ok (σ : Session) (t : String) (hInv : Inv σ)
    (hst : σ.conversation_state = "tech_stack") :
    StepOK σ (handle_tech_stack σ t).1 := by
  obtain ⟨hwf, hname, hemail, hphone, hexp, hpos, hloc, hts⟩ := hInv
  have n7 := hts hst
  unfold handle_tech_stack
  by_cases hm : 1 ≤ (((pySplitComma t).map pyStrip).filter (fun x => x ≠ "")).length
  · rw [if_pos hm]
    obtain ⟨q, cache', hqne, hwf', hEq⟩ :=
      generate_next_spec
        { σ with tech_stack := some (((pySplitComma t).map pyStrip).filter (fun x => x ≠ "")),
                 conversation_state := "technical_questions",
                 current_tech_index := 0 } hwf
    rw [hEq]
    refine ⟨⟨hwf', ?_, ?_, ?_, ?_, ?_, ?_, ?_⟩,
      ⟨fun _ h => h, fun _ h => h, fun _ h => h, fun _ h => h, fun _ h => h,
        fun _ h => h, ?_⟩, ?_, ?_⟩
    · intro h; simp at h
    · intro h; simp at h
    · intro h; simp at h
    · intro h; simp at h
    · intro h; simp at h
    · intro h; simp at h
    · intro h; simp at h
    · intro v hv; rw [n7] at hv; simp at hv
    · exact List.prefix_append _ _
    · simp [get_progress, listIndex, statesList, hst]
  · rw [if_neg hm]
    refine stepOK_refl ⟨hwf, ?_, ?_, ?_, ?_, ?_, ?_, fun _ => n7⟩ <;>
      exact fun h => absurd (hst.symm.trans h) (by decide)

theorem handle_technical_questions_ok (σ : Session) (hInv : Inv σ)
    (hst : σ.conversation_state = "technical_questions") :
    StepOK σ (handle_technical_questions σ).1 := by
  obtain ⟨hwf, hrest⟩ := hInv
  have vac : ∀ (σ' : Session), σ'.conversation_state = σ.conversation_state →
      cacheWF σ'.cache → recordPreserved σ σ' →
      σ.technical_questions <+: σ'.technical_questions →
      get_progress σ' = get_progress σ → StepOK σ σ' := by
    intro σ' hs hc hp hq hgp
    refine ⟨⟨hc, ?_, ?_, ?_, ?_, ?_, ?_, ?_⟩, hp, hq, le_of_eq hgp.symm⟩ <;>
      exact fun h => absurd (hst.symm.trans (hs ▸ h)) (by decide)
  unfold handle_technical_questions
  by_cases hz : σ.technical_questions.length % 3 = 0
  · rw [if_pos hz]
    by_cases hcur : σ.current_tech_index + 1 ≥ (σ.tech_stack.getD []).length
    · rw [if_pos hcur]
      unfold complete_technical_assessment
      refine ⟨⟨hwf, ?_, ?_, ?_, ?_, ?_, ?_, ?_⟩,
        ⟨fun _ h => h, fun _ h => h, fun _ h => h, fun _ h => h, fun _ h => h,
          fun _ h => h, fun _ h => h⟩, List.prefix_refl _, ?_⟩
      · intro h; simp at h
      · intro h; simp at h
      · intro h; simp at h
      · intro h; simp at h
      · intro h; simp at h
      · intro h; simp at h
      · intro h; simp at h
      · simp [get_progress, listIndex, statesList, hst]
    · rw [if_neg hcur]
      obtain ⟨q, cache', hqne, hwf', hEq⟩ :=
        generate_next_spec { σ with current_tech_index := σ.current_tech_index + 1 } hwf
      rw [hEq]
      exact vac _ rfl hwf'
        ⟨fun _ h => h, fun _ h => h, fun _ h => h, fun _ h => h, fun _ h => h,
          fun _ h => h, fun _ h => h⟩
        (List.prefix_append _ _) rfl
  · rw [if_neg hz]
    obtain ⟨q, cache', hqne, hwf', hEq⟩ := generate_next_spec σ hwf
    rw [hEq]
    exact vac _ rfl hwf'
      ⟨fun _ h => h, fun _ h => h, fun _ h => h, fun _ h => h, fun _ h => h,
        fun _ h => h, fun _ h => h⟩
      (List.prefix_append _ _) rfl

/-- Both fallback branches leave the session untouched. -/
theorem handle_fallback_fst (σ : Session) : (handle_fallback σ).1 = σ := by
  unfold handle_fallback
  split <;> rfl

/-- The single-step lemma: from any invariant-satisfying session, one
`process_input` call preserves the invariant and every already-written
field, only appends to the question log, and never lowers progress. -/
theorem process_input_step (σ : Session) (s : String) (hInv : Inv σ) :
    StepOK σ (process_input σ s).1 := by
  unfold process_input
  by_cases ht : pyStrip s = ""
  · rw [if_pos ht]; exact stepOK_refl hInv
  · rw [if_neg ht]
    by_cases h1 : σ.conversation_state = "name"
    · rw [if_pos h1]; exact handle_name_ok σ _ hInv h1
    · rw [if_neg h1]
      by_cases h2 : σ.conversation_state = "email"
      · rw [if_pos h2]; exact handle_email_ok σ _ hInv h2
      · rw [if_neg h2]
        by_cases h3 : σ.conversation_state = "phone"
        · rw [if_pos h3]; exact handle_phone_ok σ _ hInv h3
        · rw [if_neg h3]
          by_cases h4 : σ.conversation_state = "experience"
          · rw [if_pos h4]; exact handle_experience_ok σ _ hInv h4
          · rw [if_neg h4]
            by_cases h5 : σ.conversation_state = "position"
            · rw [if_pos h5]; exact handle_position_ok σ _ hInv h5
            · rw [if_neg h5]
              by_cases h6 : σ.conversation_state = "location"
              · rw [if_pos h6]; exact handle_location_ok σ _ hInv h6
              · rw [if_neg h6]
                by_cases h7 : σ.conversation_state = "tech_stack"
                · rw [if_pos h7]; exact handle_tech_stack_ok σ _ hInv h7
                · rw [if_neg h7]
                  by_cases h8 : σ.conversation_state = "technical_questions"
                  · rw [if_pos h8]; exact handle_technical_questions_ok σ hInv h8
                  · rw [if_neg h8]
                    rw [handle_fallback_fst σ]
                    exact stepOK_refl hInv

/-- Folding any input sequence preserves the invariant, the record, the
question log and the progress. -/
theorem runInputs_step (σ : Session) (inputs : List String) (hInv : Inv σ) :
    Inv (runInputs σ inputs) ∧ recordPreserved σ (runInputs σ inputs)
      ∧ σ.technical_questions <+: (runInputs σ inputs).technical_questions
      ∧ get_progress σ ≤ get_progress (runInputs σ inputs) := by
  induction inputs generalizing σ with
  | nil => exact ⟨hInv, recordPreserved_refl σ, List.prefix_refl _, le_refl _⟩
  | cons a l ih =>
    obtain ⟨hInv', hrp, hpre, hgp⟩ := process_input_step σ a hInv
    obtain ⟨iInv, irp, ipre, igp⟩ := ih _ hInv'
    exact ⟨iInv, recordPreserved_trans hrp irp, hpre.trans ipre, hgp.trans igp⟩

/-- The freshly started session satisfies the invariant. -/
theorem start_inv : Inv (start_conversation initSession).1 := by
  refine ⟨?_, ?_, ?_, ?_, ?_, ?_, ?_, ?_⟩
  · intro p hp; simp [start_conversation, initSession] at hp
  all_goals intro h
  all_goals first
    | exact ⟨rfl, rfl, rfl, rfl, rfl, rfl, rfl⟩
    | exact ⟨rfl, rfl, rfl, rfl, rfl, rfl⟩
    | exact ⟨rfl, rfl, rfl, rfl, rfl⟩
    | exact ⟨rfl, rfl, rfl, rfl⟩
    | exact ⟨rfl, rfl, rfl⟩
    | exact ⟨rfl, rfl⟩
    | exact rfl

/-! ## General helper lemmas -/

/-- The session right after `start_conversation()` on a fresh chatbot. -/
def startedSession : Session := (start_conversation initSession).1

theorem runInputs_cons (σ : Session) (a : String) (l : List String) :
    runInputs σ (a :: l) = runInputs (process_input σ a).1 l := rfl

theorem runInputs_nil (σ : Session) : runInputs σ [] = σ := rfl

/-- In the `technical_questions` state the handler never reads the answer
text, so any two non-empty inputs produce the same step. -/
theorem tq_input_indep (σ : Session) (s : String)
    (hst : σ.conversation_state = "technical_questions")
    (hs : pyStrip s ≠ "") :
    process_input σ s = handle_technical_questions σ := by
  unfold process_input
  rw [if_neg hs, hst]
  simp

/-- `process_input` dispatches to `_handle_fallback` for every state without
a dedicated handler. -/
theorem process_input_fallback (σ : Session) (s : String) (hs : pyStrip s ≠ "")
    (h1 : σ.conversation_state ≠ "name") (h2 : σ.conversation_state ≠ "email")
    (h3 : σ.conversation_state ≠ "phone")
    (h4 : σ.conversation_state ≠ "experience")
    (h5 : σ.conversation_state ≠ "position")
    (h6 : σ.conversation_state ≠ "location")
    (h7 : σ.conversation_state ≠ "tech_stack")
    (h8 : σ.conversation_state ≠ "technical_questions") :
    process_input σ s = handle_fallback σ := by
  unfold process_input
  rw [if_neg hs, if_neg h1, if_neg h2, if_neg h3, if_neg h4, if_neg h5,
    if_neg h6, if_neg h7, if_neg h8]

/-- Positions reported by `listIndex` are valid indices. -/
theorem listIndex_lt_length : ∀ (l : List String) (x : String) (i : Nat),
    listIndex l x = some i → i < l.length := by
  intro l
  induction l with
  | nil => intro x i h; simp [listIndex] at h
  | cons a t ih =>
    intro x i h
    rw [listIndex] at h
    by_cases hax : a = x
    · rw [if_pos hax] at h
      simp at h
      simp [← h]
    · rw [if_neg hax] at h
      cases hr : listIndex t x with
      | none => rw [hr] at h; simp at h
      | some j =>
        rw [hr] at h
        simp at h
        have := ih x j hr
        simp [← h]
        omega

/-- The progress metric is bounded by 90 on every session whatsoever. -/
theorem get_progress_le (σ : Session) : get_progress σ ≤ 90 := by
  unfold get_progress
  cases hli : listIndex statesList σ.conversation_state with
  | none => simp
  | some i =>
    have hlt := listIndex_lt_length statesList _ i hli
    have h10 : statesList.length = 10 := by decide
    rw [h10] at hlt
    show 100 * i / 10 ≤ 90
    omega

/-! ## The email matcher agrees with the spec's pattern description -/

theorem splitAtSign_eq : ∀ (l a b : List Char),
    splitAtSign l = some (a, b) → l = a ++ '@' :: b ∧ '@' ∉ a := by
  intro l
  induction l with
  | nil => intro a b h; simp [splitAtSign] at h
  | cons c t ih =>
    intro a b h
    rw [splitAtSign] at h
    by_cases hc : c = '@'
    · rw [if_pos hc] at h
      simp at h
      obtain ⟨rfl, rfl⟩ := h
      rw [hc]
      exact ⟨rfl, List.not_mem_nil _⟩
    · rw [if_neg hc] at h
      cases hs : splitAtSign t with
      | none => rw [hs] at h; simp at h
      | some p =>
        rw [hs] at h
        simp at h
        obtain ⟨hp1, hp2⟩ := ih p.1 p.2 (by rw [hs])
        rw [← h.2, ← h.1]
        constructor
        · simpa using hp1
        · intro hmem
          rcases List.mem_cons.mp hmem with h' | h'
          · exact hc h'.symm
          · exact hp2 h'

theorem splitAtSign_append : ∀ (a b : List Char), '@' ∉ a →
    splitAtSign (a ++ '@' :: b) = some (a, b) := by
  intro a
  induction a with
  | nil => intro b _; rw [List.nil_append, splitAtSign, if_pos rfl]
  | cons c t ih =>
    intro b hna
    have hc : c ≠ '@' := fun h => hna (h ▸ List.mem_cons_self c t)
    have ht : '@' ∉ t := fun h => hna (List.mem_cons_of_mem c h)
    rw [List.cons_append, splitAtSign, if_neg hc, ih b ht]
    rfl

theorem list_split_at (l : List Char) (j : Nat) (h : j < l.length) :
    l = l.take j ++ l.getD j ' ' :: l.drop (j + 1) := by
  conv_lhs => rw [← List.take_append_drop j l]
  rw [List.drop_eq_getElem_cons h, List.getD_eq_getElem l ' ' h]

theorem getD_append_at (a : List Char) (b : Char) (c : List Char) :
    (a ++ b :: c).getD a.length ' ' = b := by
  have h : a.length < (a ++ b :: c).length := by
    rw [List.length_append]
    simp
  rw [List.getD_eq_getElem _ ' ' h]
  rw [List.getElem_append_right (le_refl a.length)]
  simp

theorem drop_append_at (a : List Char) (b : Char) (c : List Char) :
    (a ++ b :: c).drop (a.length + 1) = c := by
  have : a ++ b :: c = (a ++ [b]) ++ c := by simp
  rw [this]
  have hl : (a ++ [b]).length = a.length + 1 := by simp
  rw [← hl, List.drop_left]

/-- The embedded email matcher accepts exactly the strings of the spec's
shape: non-empty local part, `'@'`, a domain, a dot, an alphabetic TLD of
length at least 2. -/
theorem emailMatch_iff (s : String) : emailMatch s = true ↔ specEmailPattern s := by
  constructor
  · intro h
    unfold emailMatch at h
    cases hs : splitAtSign s.data with
    | none => rw [hs] at h; simp at h
    | some p =>
      obtain ⟨lp, rest⟩ := p
      rw [hs] at h
      simp only [Bool.and_eq_true] at h
      obtain ⟨⟨hne, hlp⟩, hdom⟩ := h
      obtain ⟨j, hjr, hj⟩ := List.any_eq_true.mp hdom
      simp only [Bool.and_eq_true, decide_eq_true_eq, beq_iff_eq] at hj
      obtain ⟨⟨⟨⟨hj1, hjdot⟩, hjtake⟩, hjdrop⟩, hjlen⟩ := hj
      have hjlt : j < rest.length := List.mem_range.mp hjr
      obtain ⟨hsplit, _⟩ := splitAtSign_eq s.data lp rest hs
      refine ⟨lp, rest.take j, rest.drop (j + 1), ?_, ?_, ?_, ?_, ?_, ?_, ?_⟩
      · rw [hsplit, ← hjdot, ← list_split_at rest j hjlt]
      · intro hlpe
        rw [hlpe] at hne
        simp at hne
      · exact fun c hc => List.all_eq_true.mp hlp c hc
      · intro htk
        have hlen := congrArg List.length htk
        rw [List.length_take] at hlen
        simp only [List.length_nil] at hlen
        omega
      · exact fun c hc => List.all_eq_true.mp hjtake c hc
      · rw [List.length_drop]; exact hjlen
      · exact fun c hc => List.all_eq_true.mp hjdrop c hc
  · rintro ⟨lp, dom, tld, heq, hlpne, hlpc, hdomne, hdomc, htldlen, htlda⟩
    have hna : '@' ∉ lp := by
      intro hmem
      have := hlpc '@' hmem
      simp [emailLocalClass] at this
    unfold emailMatch
    rw [heq, splitAtSign_append lp (dom ++ '.' :: tld) hna]
    simp only [Bool.and_eq_true]
    refine ⟨⟨?_, ?_⟩, ?_⟩
    · simpa using hlpne
    · exact List.all_eq_true.mpr hlpc
    · apply List.any_eq_true.mpr
      refine ⟨dom.length, List.mem_range.mpr ?_, ?_⟩
      · rw [List.length_append]
        simp
      · simp only [Bool.and_eq_true, decide_eq_true_eq, beq_iff_eq]
        refine ⟨⟨⟨⟨?_, ?_⟩, ?_⟩, ?_⟩, ?_⟩
        · exact Nat.one_le_iff_ne_zero.mpr
            (fun h0 => hdomne (List.length_eq_zero.mp h0))
        · exact getD_append_at dom '.' tld
        · rw [List.take_left]
          exact List.all_eq_true.mpr hdomc
        · rw [drop_append_at]
          exact List.all_eq_true.mpr htlda
        · rw [List.length_append]
          simp
          omega

/-! ## Claims -/

/-- C1 (counterexample): on a fresh (empty-cache) generator,
`generate_question("python", 4)` does NOT return the same string as
`generate_question("python", 1)` — question number 4 falls into the default
`intermediate` difficulty tier while question 1 selects the `basic` tier, so
the `(questionNumber - 1) mod listLength` wrap happens inside a different
tier list. -/
theorem C1_counterexample :
    (generate_question [] "python" 4).1 ≠ (generate_question [] "python" 1).1 := by
  decide

/-- C1 (amended): the bank cycles within the difficulty tier selected by the
question number.  Question numbers outside 1..3 map to the `intermediate`
tier, so `generate_question("python", 4)` returns the first intermediate
question — equal to `generate_question("python", 7)` (wrap via
`(n - 1) mod 3` inside the same tier), not to question 1 of the basic
tier. -/
theorem C1_theorem :
    (generate_question [] "python" 4).1 = (generate_question [] "python" 7).1
      ∧ (generate_question [] "python" 4).1
          = some "How do decorators work in Python? Provide an example." := by
  decide

/-- C2: for every cache whose entries are non-empty (true initially and
preserved forever), every technology string and every question number ≥ 1,
`generate_question` returns `some` non-empty question; consequently the
chatbot's skip-a-technology branch in `_generate_next_technical_questions`
is unreachable: the step always appends exactly one question and never moves
the technology cursor. -/
theorem C2_theorem (cache : QCache) (tech : String) (n : Nat) (σ : Session)
    (hwf : cacheWF cache) (_hn : 1 ≤ n) (hσ : cacheWF σ.cache) :
    (∃ q, (generate_question cache tech n).1 = some q ∧ q ≠ "")
      ∧ (generate_next_technical_questions σ).1.current_tech_index
          = σ.current_tech_index
      ∧ ∃ q, (generate_next_technical_questions σ).1.technical_questions
          = σ.technical_questions ++ [q] := by
  obtain ⟨q, hq, hne, _⟩ := generate_question_spec cache tech n hwf
  obtain ⟨q', c', hne', hwf', hEq⟩ := generate_next_spec σ hσ
  refine ⟨⟨q, hq, hne⟩, ?_, ⟨q', ?_⟩⟩ <;> rw [hEq]

theorem C2_witness :
    cacheWF [] ∧ 1 ≤ 1 ∧ cacheWF initSession.cache
      ∧ ((∃ q, (generate_question [] "python" 1).1 = some q ∧ q ≠ "")
        ∧ (generate_next_technical_questions initSession).1.current_tech_index
            = initSession.current_tech_index
        ∧ ∃ q, (generate_next_technical_questions initSession).1.technical_questions
            = initSession.technical_questions ++ [q]) := by
  have hwf : cacheWF [] := fun p hp => absurd hp (List.not_mem_nil p)
  exact ⟨hwf, by decide, hwf, C2_theorem [] "python" 1 initSession hwf (by decide) hwf⟩

/-- The six profile inputs of the end-to-end scenario (claim C3). -/
def scenarioInputs : List String :=
  ["Jane Doe", "jane@x.com", "+1 555 000 1111", "3 years",
   "Backend Engineer", "Berlin, Germany"]

/-- The scenario session right after the 7th input `"Python, SQL"`. -/
def scenarioSession : Session :=
  (process_input (runInputs startedSession scenarioInputs) "Python, SQL").1

/-- C3: after the seven scenario inputs the engine sits in
`technical_questions` with exactly one asked question and the response
carries the `Technical Assessment: Python` banner; six further answers — any
non-empty texts — complete the assessment, and the summary names both
`Python` and `SQL`. -/
theorem C3_theorem (a1 a2 a3 a4 a5 a6 : String)
    (h1 : pyStrip a1 ≠ "") (h2 : pyStrip a2 ≠ "") (h3 : pyStrip a3 ≠ "")
    (h4 : pyStrip a4 ≠ "") (h5 : pyStrip a5 ≠ "") (h6 : pyStrip a6 ≠ "") :
    scenarioSession.conversation_state = "technical_questions"
      ∧ scenarioSession.technical_questions.length = 1
      ∧ occursB "Technical Assessment: Python"
          (process_input (runInputs startedSession scenarioInputs) "Python, SQL").2
          = true
      ∧ (runInputs scenarioSession [a1, a2, a3, a4, a5, a6]).conversation_state
          = "completed"
      ∧ occursB "Python"
          (process_input (runInputs scenarioSession [a1, a2, a3, a4, a5]) a6).2 = true
      ∧ occursB "SQL"
          (process_input (runInputs scenarioSession [a1, a2, a3, a4, a5]) a6).2 = true := by
  simp only [runInputs_cons, runInputs_nil]
  rw [tq_input_indep scenarioSession a1 (by decide) h1]
  rw [tq_input_indep _ a2 (by decide) h2]
  rw [tq_input_indep _ a3 (by decide) h3]
  rw [tq_input_indep _ a4 (by decide) h4]
  rw [tq_input_indep _ a5 (by decide) h5]
  rw [tq_input_indep _ a6 (by decide) h6]
  decide

theorem C3_witness :
    pyStrip "ok" ≠ ""
      ∧ (scenarioSession.conversation_state = "technical_questions"
        ∧ scenarioSession.technical_questions.length = 1
        ∧ occursB "Technical Assessment: Python"
            (process_input (runInputs startedSession scenarioInputs) "Python, SQL").2
            = true
        ∧ (runInputs scenarioSession ["ok", "ok", "ok", "ok", "ok", "ok"]).conversation_state
            = "completed"
        ∧ occursB "Python"
            (process_input (runInputs scenarioSession ["ok", "ok", "ok", "ok", "ok"]) "ok").2
            = true
        ∧ occursB "SQL"
            (process_input (runInputs scenarioSession ["ok", "ok", "ok", "ok", "ok"]) "ok").2
            = true) := by
  have h : pyStrip "ok" ≠ "" := by decide
  exact ⟨h, C3_theorem "ok" "ok" "ok" "ok" "ok" "ok" h h h h h h⟩

/-- The scenario session stopped after the first two inputs: it waits in the
`phone` state. -/
def phoneSession : Session := runInputs startedSession ["Jane Doe", "jane@x.com"]

/-- C4 (counterexample): in the `phone` state the 21-character input
`"+12345678901234567890"` (a `'+'` followed by twenty digits) is accepted
and stored verbatim, refuting the claimed 8–20 length bound on the stored
phone string: the regex `^[\+]?[\d\s\-\(\)\.]{8,20}$` counts the optional
leading `'+'` outside the 8–20 repetition. -/
theorem C4_counterexample :
    phoneSession.conversation_state = "phone"
      ∧ (process_input phoneSession "+12345678901234567890").1.conversation_state
          = "experience"
      ∧ (process_input phoneSession "+12345678901234567890").1.phone
          = some "+12345678901234567890"
      ∧ ¬("+12345678901234567890".data.length ≤ 20) := by
  decide

/-- C4 (amended): every input accepted while in the `phone` state is stored
stripped, and consists of an optional leading `'+'` followed by a core of 8
to 20 characters, each a digit, whitespace, `'-'`, `'('`, `')'` or `'.'`
(so the stored string has 8 to 21 characters, and `'+'` only ever appears
as its first character). -/
theorem C4_theorem (σ : Session) (s : String)
    (hst : σ.conversation_state = "phone")
    (hacc : (process_input σ s).1.conversation_state = "experience") :
    (process_input σ s).1.phone = some (pyStrip s)
      ∧ ∃ core : List Char,
          ((pyStrip s).data = core ∨ (pyStrip s).data = '+' :: core)
            ∧ 8 ≤ core.length ∧ core.length ≤ 20
            ∧ ∀ c ∈ core, phoneClass c = true := by
  by_cases ht : pyStrip s = ""
  · have hstep : process_input σ s
        = (σ, "I didn't receive any input. Could you please try again?") := by
      unfold process_input
      rw [if_pos ht]
    rw [hstep] at hacc
    exact absurd (hst.symm.trans hacc) (by decide)
  · by_cases hm : phoneMatch (pyStrip s) = true
    · have hstep : process_input σ s
          = ({ σ with phone := some (pyStrip s),
                      conversation_state := "experience" },
             "Perfect! **How many years of professional experience do you have?**") := by
        unfold process_input handle_phone
        rw [if_neg ht, hst]
        simp [hm]
      rw [hstep]
      refine ⟨rfl, ?_⟩
      unfold phoneMatch at hm
      cases hd : (pyStrip s).data with
      | nil => rw [hd] at hm; simp [phoneBodyOk] at hm
      | cons c rest =>
        rw [hd] at hm
        have hm' : (if c = '+' then phoneBodyOk rest
            else phoneBodyOk (c :: rest)) = true := hm
        by_cases hc : c = '+'
        · rw [if_pos hc] at hm'
          unfold phoneBodyOk at hm'
          simp only [Bool.and_eq_true, decide_eq_true_eq] at hm'
          exact ⟨rest, Or.inr (by rw [hc]), hm'.1.1, hm'.1.2,
            fun ch hch => List.all_eq_true.mp hm'.2 ch hch⟩
        · rw [if_neg hc] at hm'
          unfold phoneBodyOk at hm'
          simp only [Bool.and_eq_true, decide_eq_true_eq] at hm'
          exact ⟨c :: rest, Or.inl rfl, hm'.1.1, hm'.1.2,
            fun ch hch => List.all_eq_true.mp hm'.2 ch hch⟩
    · have hstep : process_input σ s
          = (σ, "Please provide a valid phone number (8-15 digits, may include +, spaces, dashes, or parentheses). "
              ++ "**What's your phone number?**") := by
        unfold process_input handle_phone
        rw [if_neg ht, hst]
        simp [hm]
      rw [hstep] at hacc
      exact absurd (hst.symm.trans hacc) (by decide)

theorem C4_witness :
    phoneSession.conversation_state = "phone"
      ∧ (process_input phoneSession "+1 555 000 1111").1.conversation_state
          = "experience"
      ∧ ((process_input phoneSession "+1 555 000 1111").1.phone
            = some (pyStrip "+1 555 000 1111")
        ∧ ∃ core : List Char,
            ((pyStrip "+1 555 000 1111").data = core
                ∨ (pyStrip "+1 555 000 1111").data = '+' :: core)
              ∧ 8 ≤ core.length ∧ core.length ≤ 20
              ∧ ∀ c ∈ core, phoneClass c = true) := by
  refine ⟨by decide, by decide, C4_theorem phoneSession "+1 555 000 1111" (by decide) (by decide)⟩

/-- C5: in the `experience` state, an input with no digit run, or whose
first digit run parses outside [0, 50], changes nothing (state stays at
`experience`, no field written — the step returns the session unchanged);
otherwise the first digit run's value `n` is stored as `"<n> years"` and the
state advances to `position`.  (A digit run is never negative, so only the
upper bound can cut.) -/
theorem C5_theorem (σ : Session) (s : String)
    (hst : σ.conversation_state = "experience") :
    ((firstDigitRun (pyStrip s) = none
        ∨ ∃ run, firstDigitRun (pyStrip s) = some run ∧ 50 < natOfDigits run) →
      (process_input σ s).1 = σ)
    ∧ (∀ run, firstDigitRun (pyStrip s) = some run → natOfDigits run ≤ 50 →
        (process_input σ s).1 =
          { σ with experience := some (toString (natOfDigits run) ++ " years"),
                   conversation_state := "position" }) := by
  by_cases ht : pyStrip s = ""
  · have hstep : process_input σ s
        = (σ, "I didn't receive any input. Could you please try again?") := by
      unfold process_input
      rw [if_pos ht]
    have hnone : firstDigitRun (pyStrip s) = none := by
      rw [ht]; decide
    refine ⟨fun _ => by rw [hstep], fun run hr => ?_⟩
    rw [hnone] at hr
    exact absurd hr (by simp)
  · have hstep : process_input σ s = handle_experience σ (pyStrip s) := by
      unfold process_input
      rw [if_neg ht, hst]
      simp
    rw [hstep]
    unfold handle_experience
    split
    · next run heq =>
      split
      · next hy =>
        constructor
        · rintro (hcase | ⟨run', hrun', hgt⟩)
          · rw [heq] at hcase; simp at hcase
          · rw [heq] at hrun'
            injection hrun' with h
            subst h
            omega
        · intro run' hrun' _
          rw [heq] at hrun'
          injection hrun' with h
          subst h
          rfl
      · next hy =>
        refine ⟨fun _ => rfl, fun run' hrun' hle => ?_⟩
        rw [heq] at hrun'
        injection hrun' with h
        subst h
        omega
    · next heq =>
      refine ⟨fun _ => rfl, fun run hrun _ => ?_⟩
      rw [heq] at hrun
      simp at hrun

theorem C5_witness :
    (({ initSession with conversation_state := "experience" } : Session).conversation_state
        = "experience")
      ∧ (∀ run, firstDigitRun (pyStrip "I have 7 years in backend") = some run →
          natOfDigits run ≤ 50 →
          (process_input { initSession with conversation_state := "experience" }
              "I have 7 years in backend").1 =
            { initSession with
                conversation_state := "position",
                experience := some (toString (natOfDigits run) ++ " years") })
      ∧ ((firstDigitRun (pyStrip "no experience") = none
          ∨ ∃ run, firstDigitRun (pyStrip "no experience") = some run
              ∧ 50 < natOfDigits run) →
        (process_input { initSession with conversation_state := "experience" }
            "no experience").1
          = { initSession with conversation_state := "experience" })
      ∧ ((firstDigitRun (pyStrip "70") = none
          ∨ ∃ run, firstDigitRun (pyStrip "70") = some run ∧ 50 < natOfDigits run) →
        (process_input { initSession with conversation_state := "experience" } "70").1
          = { initSession with conversation_state := "experience" }) := by
  refine ⟨rfl,
    (C5_theorem { initSession with conversation_state := "experience" }
      "I have 7 years in backend" rfl).2,
    (C5_theorem { initSession with conversation_state := "experience" }
      "no experience" rfl).1,
    (C5_theorem { initSession with conversation_state := "experience" } "70" rfl).1⟩

/-- C6: along every input sequence on a session started once with
`start_conversation`, one more `process_input` call never changes a
candidate field that already holds a value (so each field is assigned at
most once, on leaving its collection state) and can only extend the
asked-questions list (the old list is a prefix of the new one). -/
theorem C6_theorem (inputs : List String) (s : String) :
    recordPreserved (runInputs startedSession inputs)
        (process_input (runInputs startedSession inputs) s).1
      ∧ (runInputs startedSession inputs).technical_questions
          <+: (process_input (runInputs startedSession inputs) s).1.technical_questions := by
  have hInv := (runInputs_step startedSession inputs start_inv).1
  obtain ⟨_, hrp, hpre, _⟩ := process_input_step _ s hInv
  exact ⟨hrp, hpre⟩

theorem C6_witness :
    (runInputs startedSession ["Jane Doe"]).name = some "Jane Doe"
      ∧ (process_input (runInputs startedSession ["Jane Doe"]) "jane@x.com").1.name
          = some "Jane Doe"
      ∧ (runInputs startedSession ["Jane Doe"]).technical_questions
          <+: (process_input (runInputs startedSession ["Jane Doe"]) "jane@x.com").1.technical_questions := by
  have h := C6_theorem ["Jane Doe"] "jane@x.com"
  exact ⟨by decide, h.1.1 "Jane Doe" (by decide), h.2⟩

/-- C7 (counterexample): progress is NOT monotone across sequences that
include `end_conversation`: `end_conversation` sets the state to `"ended"`,
which is not in the 10-state list, so `get_progress` falls back to 0 — below
the 10 reported right after `start_conversation`. -/
theorem C7_counterexample :
    get_progress (end_conversation startedSession).1 < get_progress startedSession := by
  decide

/-- C7 (amended): `get_progress` equals `floor(100 * index / 10)` for every
state in the fixed 10-state list and 0 otherwise, always lies in [0, 100],
and is monotonically non-decreasing across `process_input` calls; but
`end_conversation` moves the session to the `"ended"` state, where the
reported progress drops to 0 (and a repeated `start_conversation` would
likewise reset it), so monotonicity holds only along `process_input`. -/
theorem C7_theorem (inputs more : List String) :
    get_progress (runInputs startedSession inputs) ≤ 100
      ∧ (∀ i, listIndex statesList
            (runInputs startedSession inputs).conversation_state = some i →
          get_progress (runInputs startedSession inputs) = 100 * i / 10)
      ∧ get_progress (runInputs startedSession inputs)
          ≤ get_progress (runInputs (runInputs startedSession inputs) more)
      ∧ get_progress (end_conversation (runInputs startedSession inputs)).1 = 0 := by
  have hInv := (runInputs_step startedSession inputs start_inv).1
  refine ⟨le_trans (get_progress_le _) (by omega), ?_, ?_, ?_⟩
  · intro i hi
    unfold get_progress
    rw [hi]
  · exact (runInputs_step _ more hInv).2.2.2
  · show get_progress { runInputs startedSession inputs with
        conversation_state := "ended" } = 0
    unfold get_progress
    simp
    decide

theorem C7_witness :
    get_progress (runInputs startedSession []) ≤ 100
      ∧ (listIndex statesList
            (runInputs startedSession []).conversation_state = some 1 →
          get_progress (runInputs startedSession []) = 100 * 1 / 10)
      ∧ get_progress (runInputs startedSession [])
          ≤ get_progress (runInputs (runInputs startedSession []) ["Jane Doe"])
      ∧ get_progress (end_conversation (runInputs startedSession [])).1 = 0 := by
  obtain ⟨ha, hb, hc, hd⟩ := C7_theorem [] ["Jane Doe"]
  exact ⟨ha, hb 1, hc, hd⟩

/-- C8 (counterexample): after `end_conversation` the session is in the
`"ended"` state, and a further `process_input` returns the generic
"I'm not sure I understand" fallback — not the static "screening already
complete" message, which `_handle_fallback` reserves for the `"completed"`
state.  (The record is indeed left unchanged.) -/
theorem C8_counterexample :
    (process_input (end_conversation startedSession).1 "hello").1
        = (end_conversation startedSession).1
      ∧ (process_input (end_conversation startedSession).1 "hello").2
          ≠ screeningCompleteMessage := by
  decide

/-- C8 (amended): `end_conversation` always moves the state to `"ended"` and
returns a non-empty farewell; any later `process_input` with non-empty input
returns the generic fallback message (the "screening already complete"
message appears only in the `completed` state) and leaves the session —
record, asked questions and state — completely unchanged; in the
`completed` state, `process_input` returns the static "screening already
complete" message, also without mutating anything. -/
theorem C8_theorem (σ : Session) (s : String) :
    (end_conversation σ).1.conversation_state = "ended"
      ∧ (end_conversation σ).2 ≠ ""
      ∧ (pyStrip s ≠ "" →
          process_input (end_conversation σ).1 s
            = ((end_conversation σ).1, fallbackGenericMessage))
      ∧ (σ.conversation_state = "completed" → pyStrip s ≠ "" →
          process_input σ s = (σ, screeningCompleteMessage)) := by
  have hends : (end_conversation σ).1.conversation_state = "ended" := rfl
  have hfarewell : ∀ b : Bool, farewellMessage b ≠ "" := by
    intro b; cases b <;> decide
  refine ⟨rfl, hfarewell _, ?_, ?_⟩
  · intro hs
    have hfb := process_input_fallback (end_conversation σ).1 s hs
      (fun h => absurd (hends.symm.trans h) (by decide))
      (fun h => absurd (hends.symm.trans h) (by decide))
      (fun h => absurd (hends.symm.trans h) (by decide))
      (fun h => absurd (hends.symm.trans h) (by decide))
      (fun h => absurd (hends.symm.trans h) (by decide))
      (fun h => absurd (hends.symm.trans h) (by decide))
      (fun h => absurd (hends.symm.trans h) (by decide))
      (fun h => absurd (hends.symm.trans h) (by decide))
    rw [hfb]
    unfold handle_fallback
    rw [if_neg (fun h => absurd (hends.symm.trans h) (by decide))]
  · intro hcompleted hs
    have hfb := process_input_fallback σ s hs
      (fun h => by rw [hcompleted] at h; exact absurd h (by decide))
      (fun h => by rw [hcompleted] at h; exact absurd h (by decide))
      (fun h => by rw [hcompleted] at h; exact absurd h (by decide))
      (fun h => by rw [hcompleted] at h; exact absurd h (by decide))
      (fun h => by rw [hcompleted] at h; exact absurd h (by decide))
      (fun h => by rw [hcompleted] at h; exact absurd h (by decide))
      (fun h => by rw [hcompleted] at h; exact absurd h (by decide))
      (fun h => by rw [hcompleted] at h; exact absurd h (by decide))
    rw [hfb]
    unfold handle_fallback
    rw [if_pos hcompleted]

theorem C8_witness :
    (end_conversation startedSession).1.conversation_state = "ended"
      ∧ (end_conversation startedSession).2 ≠ ""
      ∧ process_input (end_conversation startedSession).1 "hello"
          = ((end_conversation startedSession).1, fallbackGenericMessage)
      ∧ process_input { startedSession with conversation_state := "completed" } "hello"
          = ({ startedSession with conversation_state := "completed" },
             screeningCompleteMessage) := by
  obtain ⟨ha, hb, hc, _⟩ := C8_theorem startedSession "hello"
  obtain ⟨_, _, _, hd⟩ :=
    C8_theorem { startedSession with conversation_state := "completed" } "hello"
  exact ⟨ha, hb, hc (by decide), hd rfl (by decide)⟩

/-- `_validate_candidate_data` accepts exactly the records with a truthy
name and a truthy email matching the email pattern of the spec. -/
theorem validate_iff (d : CandidateData) :
    validate_candidate_data d = true
      ↔ (d.name ≠ "" ∧ d.email ≠ "" ∧ specEmailPattern d.email) := by
  unfold validate_candidate_data
  rw [Bool.and_eq_true, Bool.and_eq_true]
  constructor
  · rintro ⟨⟨hn, he⟩, hm⟩
    refine ⟨?_, ?_, (emailMatch_iff _).mp hm⟩
    · simpa using hn
    · simpa using he
  · rintro ⟨hn, he, hspec⟩
    exact ⟨⟨by simpa using hn, by simpa using he⟩, (emailMatch_iff _).mpr hspec⟩

/-- C9: `save_candidate_data` accepts a record exactly when the name is
non-empty and the email is non-empty and matches the spec's email pattern
(local part, `'@'`, domain containing a dot, alphabetic TLD of length ≥ 2);
when validation fails it returns `False` and the store is untouched. -/
theorem C9_theorem (genId : CandidateData → String) (store : CandidateStore)
    (d : CandidateData) :
    ((save_candidate_data genId store d).1 = true
        ↔ (d.name ≠ "" ∧ d.email ≠ "" ∧ specEmailPattern d.email))
      ∧ ((save_candidate_data genId store d).1 = false →
          (save_candidate_data genId store d).2 = store) := by
  by_cases hv : validate_candidate_data d = true
  · have hsave : (save_candidate_data genId store d).1 = true := by
      unfold save_candidate_data
      rw [hv]
      simp only [Bool.not_true, Bool.false_eq_true, if_false]
      split <;> rfl
    constructor
    · rw [hsave]
      simp only [true_iff]
      exact (validate_iff d).mp hv
    · intro hfalse
      rw [hsave] at hfalse
      exact absurd hfalse (by decide)
  · have hv' : validate_candidate_data d = false := by
      simpa using hv
    have hsave : save_candidate_data genId store d = (false, store) := by
      unfold save_candidate_data
      rw [hv']
      rfl
    rw [hsave]
    constructor
    · simp only [Bool.false_eq_true, false_iff]
      intro hrhs
      exact hv ((validate_iff d).mpr hrhs)
    · intro _; rfl

theorem C9_witness :
    ((save_candidate_data (fun _ => "id") [] ⟨"Jane Doe", "jane@x.com"⟩).1 = true
        ↔ (("Jane Doe" : String) ≠ "" ∧ ("jane@x.com" : String) ≠ ""
            ∧ specEmailPattern "jane@x.com"))
      ∧ (save_candidate_data (fun _ => "id") [] ⟨"Jane Doe", ""⟩).1 = false
      ∧ (save_candidate_data (fun _ => "id") [] ⟨"Jane Doe", ""⟩).2 = [] := by
  refine ⟨(C9_theorem (fun _ => "id") [] ⟨"Jane Doe", "jane@x.com"⟩).1, ?_, ?_⟩
  · decide
  · exact (C9_theorem (fun _ => "id") [] ⟨"Jane Doe", ""⟩).2 (by decide)

/-- C10: `get_progress` never exceeds 90 on any session whatsoever — the
deepest reachable state, `completed`, sits at index 9 of the 10-state list
and reports `floor(100 * 9 / 10) = 90`, and states outside the list report
0 — so the nominal [0, 100] range is never saturated and 100 is never
returned. -/
theorem C10_theorem (σ : Session) :
    get_progress σ ≤ 90
      ∧ (σ.conversation_state = "completed" → get_progress σ = 90) := by
  refine ⟨get_progress_le σ, fun h => ?_⟩
  unfold get_progress
  rw [h]
  decide

theorem C10_witness :
    get_progress { initSession with conversation_state := "completed" } ≤ 90
      ∧ get_progress { initSession with conversation_state := "completed" } = 90 := by
  obtain ⟨ha, hb⟩ := C10_theorem { initSession with conversation_state := "completed" }
  exact ⟨ha, hb rfl⟩

end TalentScout
